import Mathlib

/-!
Verification of `col_agent.py` (Catalogue of Life search agent).

The script interprets a free-text query into `CoLQueryParams` via a
schema-constrained generation call, performs one HTTP GET against the
Catalogue of Life search API, normalizes the raw JSON payload into a list
of `NameInfo` records inside a `ColResponse` envelope, asks the generation
service for a summary, prints a report and writes a CSV export when
`total > 0`.

The embedding below models Python values as a `Json` inductive, Python
`dict.get` / subscript / iteration (which raise on non-dict receivers) as
`Except`-valued functions, and pydantic field validation as explicit
coercion functions.  Exceptions that the script catches (only the
`try/except` around the `NameInfo(...)` construction, source lines 84-94)
are turned into a skipped record; every other raised exception propagates
as an `Except.error` of the whole computation, exactly as an uncaught
Python exception aborts the run.
-/

/-- Model of a Python/JSON value as manipulated by `col_agent.py`. -/
inductive Json where
  | null
  | bool (b : Bool)
  | num (n : Int)
  | str (s : String)
  | arr (elems : List Json)
  | obj (fields : List (String × Json))

/-- First-match key lookup in a Python dict, modelled as an association list. -/
def jlookup : List (String × Json) → String → Option Json
  | [], _ => none
  | (k, v) :: fs, key => if k = key then some v else jlookup fs key

/-- Python `d.get(key, default)`: returns `default` when the key is missing, and
raises `AttributeError` when the receiver is not a dict. -/
def pyGetD (j : Json) (k : String) (d : Json) : Except String Json :=
  match j with
  | .obj fs => .ok ((jlookup fs k).getD d)
  | _ => .error "AttributeError"

/-- Python `d.get(key)` (default `None`). -/
def pyGet (j : Json) (k : String) : Except String Json :=
  pyGetD j k .null

/-- Python `d[key]`: raises `KeyError` when the key is missing and `TypeError`
when the receiver is not a dict (list subscripts do not occur here). -/
def pyIndex (j : Json) (k : String) : Except String Json :=
  match j with
  | .obj fs =>
    match jlookup fs k with
    | some v => .ok v
    | none => .error "KeyError"
  | _ => .error "TypeError"

/-- Python iteration `for x in j`: lists yield their elements, dicts their keys,
strings their characters; other values raise `TypeError`. -/
def pyIter (j : Json) : Except String (List Json) :=
  match j with
  | .arr es => .ok es
  | .obj fs => .ok (fs.map (fun p => .str p.1))
  | .str s => .ok (s.data.map (fun c => .str (String.mk [c])))
  | _ => .error "TypeError"

mutual
/-- Python `repr` of a value, used by `str()` on non-string values. -/
def pyRepr : Json → String
  | .null => "None"
  | .bool b => if b then "True" else "False"
  | .num n => toString n
  | .str s => "'" ++ s ++ "'"
  | .arr es => "[" ++ ", ".intercalate (pyReprList es) ++ "]"
  | .obj fs => "\x7b" ++ ", ".intercalate (pyReprFields fs) ++ "\x7d"

def pyReprList : List Json → List String
  | [] => []
  | j :: js => pyRepr j :: pyReprList js

def pyReprFields : List (String × Json) → List String
  | [] => []
  | (k, v) :: fs => ("'" ++ k ++ "': " ++ pyRepr v) :: pyReprFields fs
end

/-- Python `str(j)` as used inside the link f-string (line 88): identity on
strings, `"None"` for `None`, `repr` otherwise. -/
def pyStr (j : Json) : String :=
  match j with
  | .str s => s
  | _ => pyRepr j

/-- One normalized species record (pydantic model `NameInfo`, lines 24-29).
`link` carries the validated URL string of the `HttpUrl` field. -/
structure NameInfo where
  scientificName : String
  rank : String
  link : Option String
  acceptedName : Option String
  classification : Option (List String)
deriving DecidableEq, Repr

/-- Response envelope (pydantic model `ColResponse`, lines 32-35). -/
structure ColResponse where
  results : List NameInfo
  query_url : String
  total : Int
deriving DecidableEq, Repr

/-- Pydantic validation of a required `str` field: accepts exactly string
values (any string, the empty string included); no coercion from other types. -/
def asStr : Json → Except String String
  | .str s => .ok s
  | _ => .error "string_type"

/-- Pydantic validation of an `Optional[str]` field. -/
def asOptStr : Json → Except String (Option String)
  | .null => .ok none
  | .str s => .ok (some s)
  | _ => .error "string_type"

/-- Pydantic validation of an `Optional[List[str]]` field: `None` stays absent,
a list must consist of strings only. -/
def asOptStrList : Json → Except String (Option (List String))
  | .null => .ok none
  | .arr xs => do
    let ss ← xs.mapM asStr
    return some ss
  | _ => .error "list_type"

/-- Pydantic validation of an `int` field; only integer values are modelled. -/
def asInt : Json → Except String Int
  | .num n => .ok n
  | _ => .error "int_type"

/-- Modelled from pydantic `HttpUrl` validation: the string must carry an
`http`/`https` scheme followed by a non-empty, space-free authority part. -/
def authorityOk (rest : List Char) : Bool :=
  let host := rest.takeWhile (fun c => c ≠ '/' && c ≠ '?' && c ≠ '#')
  !host.isEmpty && host.all (fun c => c ≠ ' ')

/-- URL well-formedness check backing the `link : Optional[HttpUrl]` field. -/
def isValidHttpUrl (s : String) : Bool :=
  match s.data with
  | 'h' :: 't' :: 't' :: 'p' :: 's' :: ':' :: '/' :: '/' :: rest => authorityOk rest
  | 'h' :: 't' :: 't' :: 'p' :: ':' :: '/' :: '/' :: rest => authorityOk rest
  | _ => false

/-- The canonical detail-page URL template of line 88, up to the identifier. -/
def colTaxonBase : String := "https://www.catalogueoflife.org/data/taxon/"

/-- The extraction statements of lines 80-82, which run OUTSIDE the
`try` block: `usage = item.get("usage", {})`,
`name_info = usage.get("name", {})`, and the classification list
comprehension.  Any exception raised here aborts the whole run. -/
def extractItem (item : Json) : Except String (Json × Json × List Json) := do
  let usage ← pyGetD item "usage" (.obj [])
  let name_info ← pyGetD usage "name" (.obj [])
  let c ← pyGetD item "classification" (.arr [])
  let entries ← pyIter c
  let classification ← entries.mapM (fun e => pyGet e "name")
  return (usage, name_info, classification)

/-- The chained expression of line 89:
`usage.get("accepted", \x7b\x7d).get("name", \x7b\x7d).get("scientificName")`. -/
def acceptedLookup (usage : Json) : Except String Json := do
  let acceptedObj ← pyGetD usage "accepted" (.obj [])
  let acceptedNameObj ← pyGetD acceptedObj "name" (.obj [])
  pyGet acceptedNameObj "scientificName"

/-- The `NameInfo(...)` construction of lines 85-91 (inside the `try` block):
argument evaluation (subscripts, `.get` chains, the link f-string,
`classification or None`) followed by pydantic field validation. -/
def constructNameInfo (usage name_info : Json) (classification : List Json) :
    Except String NameInfo := do
  let sn ← pyIndex name_info "scientificName"
  let rk ← pyIndex name_info "rank"
  let idVal ← pyGet usage "id"
  let linkStr := colTaxonBase ++ pyStr idVal
  let acceptedVal ← acceptedLookup usage
  let clsVal : Json := if classification.isEmpty then .null else .arr classification
  let snS ← asStr sn
  let rkS ← asStr rk
  let link ← if isValidHttpUrl linkStr then pure (some linkStr)
    else Except.error "url_parsing"
  let accS ← asOptStr acceptedVal
  let clsS ← asOptStrList clsVal
  return { scientificName := snS, rank := rkS, link := link,
           acceptedName := accS, classification := clsS }

/-- One iteration of the normalization loop (lines 79-94): the extraction
phase may abort the run; a failure of the guarded construction is caught by
the `except` clause and yields a skipped record (`none`). -/
def normalizeItem (item : Json) : Except String (Option NameInfo) := do
  let (usage, name_info, classification) ← extractItem item
  match constructNameInfo usage name_info classification with
  | .ok r => return some r
  | .error _ => return none

/-- The whole loop: surviving records in order, plus one `Skipping invalid
result:` diagnostic per caught per-record failure. -/
def normalizeAll (items : List Json) :
    Except String (List NameInfo × List String) := do
  let opts ← items.mapM normalizeItem
  return (opts.filterMap id,
          (opts.filter (fun o => o.isNone)).map (fun _ => "Skipping invalid result:"))

/-- The HTTP response as seen by the script: status code, materialized URL,
decoded JSON body. -/
structure HttpResponse where
  status_code : Nat
  url : String
  body : Json

/-- Lines 73-103: the status branch, the normalization loop and the
`ColResponse` construction.  Returns the envelope together with the printed
diagnostics; an uncaught exception is an `Except.error`. -/
def buildColResponse (resp : HttpResponse) :
    Except String (ColResponse × List String) :=
  if resp.status_code = 200 then do
    let totalJ ← pyGetD resp.body "total" (.num 0)
    let resultJ ← pyGetD resp.body "result" (.arr [])
    let items ← pyIter resultJ
    let (results, diags) ← normalizeAll items
    let total ← asInt totalJ
    return ({ results := results, query_url := resp.url, total := total }, diags)
  else
    Except.ok ({ results := [], query_url := resp.url, total := 0 },
               ["API call failed: " ++ toString resp.status_code])

/-- Search parameters extracted from the user query (pydantic model
`CoLQueryParams`, lines 18-21): `q` required, `rank` optional with default
`None`, `limit` optional with default `10`. -/
structure CoLQueryParams where
  q : String
  rank : Option String
  limit : Option Int
deriving DecidableEq, Repr

/-- Pydantic validation of `CoLQueryParams` applied by instructor to the
structured generation output (lines 50-58): the object must carry a string
`q` (no emptiness constraint); `rank` defaults to `None`, `limit` to `10`. -/
def validateQueryParams (j : Json) : Except String CoLQueryParams :=
  match j with
  | .obj fs => do
    let qJ ← match jlookup fs "q" with
      | some v => Except.ok v
      | none => Except.error "missing q"
    let q ← asStr qJ
    let rank ← asOptStr ((jlookup fs "rank").getD .null)
    let limit ← match (jlookup fs "limit").getD (.num 10) with
      | .null => Except.ok (none : Option Int)
      | .num n => Except.ok (some n)
      | _ => Except.error "int_type"
    return { q := q, rank := rank, limit := limit }
  | _ => .error "model_type"

/-- The request parameters actually sent (lines 62-66): Python `or` replaces
every falsy `rank` (`None` or `""`) with `"species"` and every falsy `limit`
(`None` or `0`) with `10`. -/
structure SearchParams where
  q : String
  rank : String
  limit : Int
deriving DecidableEq, Repr

/-- `params = \x7b"q": ..., "rank": ... or "species", "limit": ... or 10\x7d`. -/
def buildSearchParams (p : CoLQueryParams) : SearchParams :=
  { q := p.q
    rank := match p.rank with
      | none => "species"
      | some r => if r = "" then "species" else r
    limit := match p.limit with
      | none => 10
      | some n => if n = 0 then 10 else n }

/-- The CSV header row written on line 144. -/
def csvHeader : List String :=
  ["Scientific Name", "Rank", "Link", "Accepted Name", "Classification"]

/-- One CSV data row (lines 146-152); absent optional fields render as empty
cells, the classification as its entries joined with `" > "`. -/
def csvRow (r : NameInfo) : List String :=
  [r.scientificName,
   r.rank,
   (match r.link with
    | none => ""
    | some l => l),
   (match r.acceptedName with
    | none => ""
    | some a => a),
   " > ".intercalate
     (match r.classification with
      | none => []
      | some c => c)]

/-- The CSV export guard of lines 140-153: a file (header plus one row per
surviving record) is written exactly when `total > 0`; `none` means no file. -/
def csvExport (resp : ColResponse) : Option (List (List String)) :=
  if resp.total > 0 then some (csvHeader :: resp.results.map csvRow) else none

/-- One console result line (lines 129-132).  Python truthiness: the
accepted-name segment is dropped for `None` and for the empty string, the
classification segment for `None` and for the empty list, the link falls back
to `No link` when `None`. -/
def entityLine (idx : Nat) (r : NameInfo) : String :=
  let linkPart := match r.link with
    | none => "No link"
    | some l => if l = "" then "No link" else l
  let acceptedPart := match r.acceptedName with
    | none => ""
    | some a => if a = "" then "" else " (Accepted name: " ++ a ++ ")"
  let clsPart := match r.classification with
    | none => ""
    | some c => if c.isEmpty then "" else " | Classification: " ++ " > ".intercalate c
  toString idx ++ ". " ++ r.scientificName ++ " (" ++ r.rank ++ ") - " ++
    linkPart ++ acceptedPart ++ clsPart

/-- The console report of lines 124-137: header, total, query URL, one line
per record (numbered from 1), then the stripped summary. -/
def reportLines (resp : ColResponse) (summaryContent : String) : List String :=
  ["✅ Structured Catalogue of Life Results",
   "Total matching records: " ++ toString resp.total,
   "Query URL: " ++ resp.query_url,
   "Results:"]
  ++ resp.results.enum.map (fun p => entityLine (p.1 + 1) p.2)
  ++ ["🧠 GPT Summary:", summaryContent.trim]

/-- Outcome of a generation-service call. -/
inductive GenOutcome where
  | ok (content : String)
  | failure (msg : String)

/-- Lines 106-153 after the envelope is built: the summary call (line 116) has
NO exception handler, so a failing generation call raises and aborts the run
before any of the report is printed; on success the report is printed and the
CSV guard runs. -/
def runFromResponse (resp : ColResponse) (summaryCall : GenOutcome) :
    Except String (List String × Option (List (List String))) :=
  match summaryCall with
  | .failure msg => .error msg
  | .ok content =>
    let exported := csvExport resp
    let lines := reportLines resp content ++
      (match exported with
       | some _ => ["📁 Results saved to col_results.csv"]
       | none => [])
    .ok (lines, exported)

/-- A well-formed raw result element carrying a name, a rank and an id. -/
def wfItem (sn id : String) : Json :=
  Json.obj [("usage", Json.obj
    [("id", Json.str id),
     ("name", Json.obj [("scientificName", Json.str sn), ("rank", Json.str "species")])])]

/-- A malformed element: nested name object present but empty. -/
def malformedNoName : Json := Json.obj [("usage", Json.obj [("name", Json.obj [])])]

/-- A malformed element: nested name object lacking `rank`. -/
def malformedNoRank : Json :=
  Json.obj [("usage", Json.obj
    [("name", Json.obj [("scientificName", Json.str "Abies alba")])])]

/-- The spec's test payload: reported total 5, three well-formed and two
malformed elements. -/
def c2Payload : Json :=
  Json.obj [("total", Json.num 5),
    ("result", Json.arr
      [wfItem "Panthera leo" "1", malformedNoName, wfItem "Panthera tigris" "2",
       malformedNoRank, wfItem "Panthera onca" "3"])]

def c2Http : HttpResponse :=
  { status_code := 200, url := "https://api.example/search?q=p", body := c2Payload }

/-- The record that normalization produces from `wfItem sn id`. -/
def mkEntity (sn id : String) : NameInfo :=
  { scientificName := sn, rank := "species", link := some (colTaxonBase ++ id),
    acceptedName := none, classification := none }

/-- A raw result element with the given usage fields and classification value. -/
def mkItem (ufs : List (String × Json)) (cls : Json) : Json :=
  Json.obj [("usage", Json.obj ufs), ("classification", cls)]

/-- A payload with one element that is not an object at all. -/
def c2BadHttp : HttpResponse :=
  { status_code := 200, url := "https://api.example/search?q=p",
    body := Json.obj [("total", Json.num 2),
      ("result", Json.arr [wfItem "Panthera leo" "1", Json.str "oops"])] }

example : pyStr Json.null = "None" := rfl
example : pyStr (Json.str "ABC") = "ABC" := rfl
example : isValidHttpUrl "https://www.catalogueoflife.org/data/taxon/X" = true := rfl
example : isValidHttpUrl "notaurl" = false := rfl

/-- Model sanity check: the spec's end-to-end scenario A element. -/
example :
    normalizeItem (Json.obj
      [("usage", Json.obj
        [("id", Json.str "ABC"),
         ("name", Json.obj
           [("scientificName", Json.str "Panthera leo"), ("rank", Json.str "species")])]),
       ("classification", Json.arr
         [Json.obj [("name", Json.str "Animalia")], Json.obj [("name", Json.str "Felidae")]])]) =
    Except.ok (some
      { scientificName := "Panthera leo", rank := "species",
        link := some "https://www.catalogueoflife.org/data/taxon/ABC",
        acceptedName := none, classification := some ["Animalia", "Felidae"] }) := rfl

@[simp]
theorem exbind_ok {α β : Type} (a : α) (f : α → Except String β) :
    (Except.ok a >>= f : Except String β) = f a := rfl

@[simp]
theorem exbind_error {α β : Type} (e : String) (f : α → Except String β) :
    (Except.error e >>= f : Except String β) = Except.error e := rfl

@[simp]
theorem expure_def {α : Type} (a : α) : (pure a : Except String α) = Except.ok a := rfl

theorem exbind_ok_inv {α β : Type} {e : Except String α} {f : α → Except String β}
    {b : β} (h : (e >>= f) = .ok b) : ∃ a, e = .ok a ∧ f a = .ok b := by
  cases e with
  | ok a => exact ⟨a, rfl, h⟩
  | error msg => simp at h

theorem pyIndex_ok_inv {j : Json} {k : String} {v : Json}
    (h : pyIndex j k = Except.ok v) :
    ∃ fs, j = Json.obj fs ∧ jlookup fs k = some v := by
  cases j with
  | obj fs =>
    refine ⟨fs, rfl, ?_⟩
    simp only [pyIndex] at h
    cases hl : jlookup fs k with
    | none => rw [hl] at h; exact absurd h (by simp)
    | some a => rw [hl] at h; simp only [Except.ok.injEq] at h; rw [h]
  | null => simp [pyIndex] at h
  | bool b => simp [pyIndex] at h
  | num n => simp [pyIndex] at h
  | str s => simp [pyIndex] at h
  | arr es => simp [pyIndex] at h

theorem asStr_ok_inv {v : Json} {s : String} (h : asStr v = Except.ok s) :
    v = Json.str s := by
  cases v with
  | str t => simp only [asStr, Except.ok.injEq] at h; rw [h]
  | null => simp [asStr] at h
  | bool b => simp [asStr] at h
  | num n => simp [asStr] at h
  | arr es => simp [asStr] at h
  | obj fs => simp [asStr] at h

/-- The link f-string always passes `HttpUrl` validation: the authority part
of the template is fixed, whatever the substituted identifier text is. -/
theorem valid_link (x : String) : isValidHttpUrl (colTaxonBase ++ x) = true := by
  obtain ⟨xd⟩ := x
  rfl

theorem acceptedLookup_none (ufs : List (String × Json))
    (h : jlookup ufs "accepted" = none) :
    acceptedLookup (Json.obj ufs) = Except.ok Json.null := by
  simp [acceptedLookup, pyGetD, pyGet, h, jlookup]

theorem acceptedLookup_no_name (ufs afs : List (String × Json))
    (h : jlookup ufs "accepted" = some (Json.obj afs))
    (h2 : jlookup afs "name" = none) :
    acceptedLookup (Json.obj ufs) = Except.ok Json.null := by
  simp [acceptedLookup, pyGetD, pyGet, h, h2, jlookup]

theorem acceptedLookup_no_sn (ufs afs anfs : List (String × Json))
    (h : jlookup ufs "accepted" = some (Json.obj afs))
    (h2 : jlookup afs "name" = some (Json.obj anfs))
    (h3 : jlookup anfs "scientificName" = none) :
    acceptedLookup (Json.obj ufs) = Except.ok Json.null := by
  simp [acceptedLookup, pyGetD, pyGet, h, h2, h3]

/-- General evaluation of the guarded `NameInfo(...)` construction when the
name object carries string `scientificName` and `rank` values. -/
theorem construct_eval (ufs nfs : List (String × Json)) (cls : List Json)
    (sn rk : String) (accv : Json) (accS : Option String)
    (clsS : Option (List String))
    (hsn : jlookup nfs "scientificName" = some (Json.str sn))
    (hrk : jlookup nfs "rank" = some (Json.str rk))
    (hacc : acceptedLookup (Json.obj ufs) = Except.ok accv)
    (haccS : asOptStr accv = Except.ok accS)
    (hcls : asOptStrList (if cls.isEmpty then Json.null else Json.arr cls) =
      Except.ok clsS) :
    constructNameInfo (Json.obj ufs) (Json.obj nfs) cls =
      Except.ok { scientificName := sn, rank := rk,
                  link := some (colTaxonBase ++ pyStr ((jlookup ufs "id").getD Json.null)),
                  acceptedName := accS, classification := clsS } := by
  simp [constructNameInfo, pyIndex, pyGet, pyGetD, hsn, hrk, hacc, haccS, hcls,
    asStr, valid_link]

/-- C1 counterexample: the interpreter accepts a generation output whose
keyword is the empty string and returns it unchanged — `q: str` carries no
non-emptiness constraint, so interpretation does not fail. -/
theorem c1_empty_keyword_accepted :
    validateQueryParams (Json.obj [("q", Json.str "")]) =
      Except.ok { q := "", rank := none, limit := some 10 } ∧
    ({ q := "", rank := none, limit := some 10 } : CoLQueryParams).q = "" :=
  ⟨rfl, rfl⟩

/-- C1 (amended): interpretation fails when the keyword field is missing, but
any string keyword — the empty or whitespace string included — is accepted and
passed through unchanged, with no failure and no substitution. -/
theorem c1_keyword_validation (fs : List (String × Json)) (s : String) :
    (jlookup fs "q" = none →
      validateQueryParams (Json.obj fs) = Except.error "missing q") ∧
    (jlookup fs "q" = some (Json.str s) → jlookup fs "rank" = none →
      jlookup fs "limit" = none →
      validateQueryParams (Json.obj fs) =
        Except.ok { q := s, rank := none, limit := some 10 }) := by
  constructor
  · intro h
    simp [validateQueryParams, h]
  · intro hq hr hl
    simp [validateQueryParams, hq, hr, hl, asStr, asOptStr]

/-- C1 amended witness: a missing `q` is rejected, a whitespace-only `q` is
accepted verbatim. -/
theorem c1_keyword_validation_witness :
    validateQueryParams (Json.obj []) = Except.error "missing q" ∧
    validateQueryParams (Json.obj [("q", Json.str " ")]) =
      Except.ok { q := " ", rank := none, limit := some 10 } :=
  ⟨(c1_keyword_validation [] " ").1 rfl,
   (c1_keyword_validation [("q", Json.str " ")] " ").2 rfl rfl rfl⟩

/-- C9: the Search Client's default substitution triggers on any falsy value:
a present-but-empty `rank` is replaced by `"species"` exactly as an absent
one, and a `limit` of `0` is replaced by `10` exactly as an absent one. -/
theorem c9_falsy_defaults (q : String) (r : Option String) (l : Option Int) :
    buildSearchParams { q := q, rank := some "", limit := l } =
      buildSearchParams { q := q, rank := none, limit := l } ∧
    (buildSearchParams { q := q, rank := some "", limit := l }).rank = "species" ∧
    buildSearchParams { q := q, rank := r, limit := some 0 } =
      buildSearchParams { q := q, rank := r, limit := none } ∧
    (buildSearchParams { q := q, rank := r, limit := some 0 }).limit = 10 := by
  refine ⟨?_, ?_, ?_, ?_⟩ <;> simp [buildSearchParams]

/-- C9 witness: concrete interpreted parameters with an empty rank and a zero
limit. -/
theorem c9_falsy_defaults_witness :
    buildSearchParams { q := "lion", rank := some "", limit := some 5 } =
      buildSearchParams { q := "lion", rank := none, limit := some 5 } ∧
    (buildSearchParams { q := "lion", rank := some "", limit := some 5 }).rank =
      "species" ∧
    buildSearchParams { q := "lion", rank := some "genus", limit := some 0 } =
      buildSearchParams { q := "lion", rank := some "genus", limit := none } ∧
    (buildSearchParams { q := "lion", rank := some "genus", limit := some 0 }).limit =
      10 :=
  c9_falsy_defaults "lion" (some "genus") (some 5)

/-- C10: the CSV guard writes a file exactly when the envelope's `total` is
positive — with an empty `results` list this file holds only the header row —
and writes nothing when `total` is `0`. -/
theorem c10_csv_guard (resp : ColResponse) :
    (0 < resp.total → csvExport resp = some (csvHeader :: resp.results.map csvRow)) ∧
    (resp.total = 0 → csvExport resp = none) ∧
    (0 < resp.total → resp.results = [] → csvExport resp = some [csvHeader]) := by
  refine ⟨fun h => ?_, fun h => ?_, fun h h2 => ?_⟩
  · simp [csvExport, h]
  · simp [csvExport, h]
  · simp [csvExport, h, h2]

/-- C10 witness: a positive total with no surviving record yields a
header-only file; a zero total yields no file. -/
theorem c10_csv_guard_witness :
    csvExport { results := [], query_url := "u", total := 3 } = some [csvHeader] ∧
    csvExport { results := [], query_url := "u", total := 0 } = none :=
  ⟨(c10_csv_guard _).2.2 (by decide) rfl, (c10_csv_guard _).2.1 rfl⟩

/-- C2 counterexample: the extraction statements of lines 80-82 run outside
the `try` block, so a single result element that is not an object raises an
uncaught `AttributeError` and aborts the whole batch — contrary to the claim
that no single malformed element can abort it. -/
theorem c2_counterexample :
    buildColResponse c2BadHttp = Except.error "AttributeError" := rfl

/-- C2 (amended): object-shaped elements lacking `scientificName` or `rank`
in the nested name object are skipped without aborting while `total` is copied
unchanged — the spec's 3-good/2-bad payload with reported total 5 yields
exactly 3 records, total 5 and two skip diagnostics — but an element that is
not an object aborts the batch (see the counterexample). -/
theorem c2_skip_policy :
    buildColResponse c2Http = Except.ok
      ({ results := [mkEntity "Panthera leo" "1", mkEntity "Panthera tigris" "2",
                     mkEntity "Panthera onca" "3"],
         query_url := "https://api.example/search?q=p", total := 5 },
       ["Skipping invalid result:", "Skipping invalid result:"]) ∧
    (∀ (item usage : Json) (nfs : List (String × Json)) (cls : List Json),
      extractItem item = Except.ok (usage, Json.obj nfs, cls) →
      (jlookup nfs "scientificName" = none ∨ jlookup nfs "rank" = none) →
      normalizeItem item = Except.ok none) := by
  constructor
  · rfl
  · intro item usage nfs cls hext hmiss
    simp only [normalizeItem, hext, exbind_ok]
    rcases hmiss with h | h
    · have hc : constructNameInfo usage (Json.obj nfs) cls = Except.error "KeyError" := by
        simp [constructNameInfo, pyIndex, h]
      simp [hc]
    · cases hsn : jlookup nfs "scientificName" with
      | none =>
        have hc : constructNameInfo usage (Json.obj nfs) cls = Except.error "KeyError" := by
          simp [constructNameInfo, pyIndex, hsn]
        simp [hc]
      | some v =>
        have hc : constructNameInfo usage (Json.obj nfs) cls = Except.error "KeyError" := by
          simp [constructNameInfo, pyIndex, hsn, h]
        simp [hc]

/-- C2 amended witness: the element whose nested name object is empty is
skipped, not fatal. -/
theorem c2_skip_policy_witness : normalizeItem malformedNoName = Except.ok none :=
  c2_skip_policy.2 malformedNoName (Json.obj [("name", Json.obj [])]) [] [] rfl
    (Or.inl rfl)

/-- C3 counterexample: an element with no identifier still gets a present
link, namely the template with the Python rendering of `None` substituted —
not an absent link. -/
theorem c3_counterexample :
    normalizeItem (Json.obj [("usage", Json.obj [("name", Json.obj
        [("scientificName", Json.str "Panthera leo"), ("rank", Json.str "species")])])]) =
      Except.ok (some { scientificName := "Panthera leo", rank := "species",
                        link := some "https://www.catalogueoflife.org/data/taxon/None",
                        acceptedName := none, classification := none }) ∧
    some "https://www.catalogueoflife.org/data/taxon/None" ≠ (none : Option String) := by
  exact ⟨rfl, by simp⟩

/-- C3 (amended): with the identifier present as a string it is substituted
into the canonical template; with the identifier absent the link is NOT
absent — it is the template with the placeholder text `None` substituted. -/
theorem c3_link_synthesis (ufs nfs : List (String × Json)) (sn rk : String)
    (hsn : jlookup nfs "scientificName" = some (Json.str sn))
    (hrk : jlookup nfs "rank" = some (Json.str rk))
    (hacc : jlookup ufs "accepted" = none) :
    (jlookup ufs "id" = none →
      constructNameInfo (Json.obj ufs) (Json.obj nfs) [] =
        Except.ok { scientificName := sn, rank := rk,
                    link := some (colTaxonBase ++ "None"),
                    acceptedName := none, classification := none }) ∧
    (∀ x : String, jlookup ufs "id" = some (Json.str x) →
      constructNameInfo (Json.obj ufs) (Json.obj nfs) [] =
        Except.ok { scientificName := sn, rank := rk,
                    link := some (colTaxonBase ++ x),
                    acceptedName := none, classification := none }) := by
  have hA := acceptedLookup_none ufs hacc
  constructor
  · intro hid
    have h := construct_eval ufs nfs [] sn rk Json.null none none hsn hrk hA rfl rfl
    rw [hid] at h
    simpa [pyStr, pyRepr] using h
  · intro x hid
    have h := construct_eval ufs nfs [] sn rk Json.null none none hsn hrk hA rfl rfl
    rw [hid] at h
    simpa [pyStr] using h

/-- C3 amended witness: concrete elements with and without an identifier. -/
theorem c3_link_synthesis_witness :
    constructNameInfo (Json.obj []) (Json.obj
        [("scientificName", Json.str "Abies alba"), ("rank", Json.str "species")]) [] =
      Except.ok { scientificName := "Abies alba", rank := "species",
                  link := some (colTaxonBase ++ "None"),
                  acceptedName := none, classification := none } ∧
    constructNameInfo (Json.obj [("id", Json.str "5T6MX")]) (Json.obj
        [("scientificName", Json.str "Abies alba"), ("rank", Json.str "species")]) [] =
      Except.ok { scientificName := "Abies alba", rank := "species",
                  link := some (colTaxonBase ++ "5T6MX"),
                  acceptedName := none, classification := none } :=
  ⟨(c3_link_synthesis []
      [("scientificName", Json.str "Abies alba"), ("rank", Json.str "species")]
      "Abies alba" "species" rfl rfl rfl).1 rfl,
   (c3_link_synthesis [("id", Json.str "5T6MX")]
      [("scientificName", Json.str "Abies alba"), ("rank", Json.str "species")]
      "Abies alba" "species" rfl rfl rfl).2 "5T6MX" rfl⟩

/-- C4: the code evaluated at the failing input — a successful search whose
summary-generation call raises.  The call on lines 116-121 has no exception
handler, so the run aborts with the propagated error before the report of
lines 124-137 and the export of lines 140-153; no unavailable marker exists. -/
theorem c4_summary_failure_aborts :
    runFromResponse { results := [mkEntity "Panthera leo" "ABC"],
                      query_url := "https://api.example/search?q=leo", total := 1 }
      (GenOutcome.failure "APIConnectionError") =
    Except.error "APIConnectionError" := rfl

/-- C5 counterexample: an element whose `scientificName` is present but EMPTY
is emitted anyway — pydantic's `str` field carries no non-emptiness
constraint, contradicting the claim that emission requires non-empty values. -/
theorem c5_counterexample :
    normalizeItem (Json.obj [("usage", Json.obj [("name", Json.obj
        [("scientificName", Json.str ""), ("rank", Json.str "species")])])]) =
      Except.ok (some { scientificName := "", rank := "species",
                        link := some "https://www.catalogueoflife.org/data/taxon/None",
                        acceptedName := none, classification := none }) ∧
    ("" : String).isEmpty = true :=
  ⟨rfl, rfl⟩

/-- C5 (amended): an entity is emitted only if both `scientificName` and
`rank` are present AS STRINGS in the source name object — they may be empty —
and, conversely, with both present the entity is emitted even when identifier,
accepted sub-object and classification are all missing: the latter two degrade
to absent while the link degrades to the `None`-placeholder URL. -/
theorem c5_emission_conditions :
    (∀ (usage name_info : Json) (cls : List Json) (r : NameInfo),
      constructNameInfo usage name_info cls = Except.ok r →
      ∃ nfs, name_info = Json.obj nfs ∧
        jlookup nfs "scientificName" = some (Json.str r.scientificName) ∧
        jlookup nfs "rank" = some (Json.str r.rank)) ∧
    (∀ (ufs nfs : List (String × Json)) (sn rk : String),
      jlookup nfs "scientificName" = some (Json.str sn) →
      jlookup nfs "rank" = some (Json.str rk) →
      jlookup ufs "id" = none → jlookup ufs "accepted" = none →
      constructNameInfo (Json.obj ufs) (Json.obj nfs) [] =
        Except.ok { scientificName := sn, rank := rk,
                    link := some (colTaxonBase ++ "None"),
                    acceptedName := none, classification := none }) := by
  constructor
  · intro usage name_info cls r h
    simp only [constructNameInfo] at h
    obtain ⟨snV, hsnV, h⟩ := exbind_ok_inv h
    obtain ⟨rkV, hrkV, h⟩ := exbind_ok_inv h
    obtain ⟨idV, hidV, h⟩ := exbind_ok_inv h
    obtain ⟨accV, haccV, h⟩ := exbind_ok_inv h
    obtain ⟨snS, hsnS, h⟩ := exbind_ok_inv h
    obtain ⟨rkS, hrkS, h⟩ := exbind_ok_inv h
    obtain ⟨lnk, hlnk, h⟩ := exbind_ok_inv h
    obtain ⟨accS, haccS, h⟩ := exbind_ok_inv h
    obtain ⟨clsS, hclsS, h⟩ := exbind_ok_inv h
    simp only [expure_def, Except.ok.injEq] at h
    subst h
    obtain ⟨nfs, hni, hl⟩ := pyIndex_ok_inv hsnV
    obtain ⟨nfs2, hni2, hl2⟩ := pyIndex_ok_inv hrkV
    subst hni
    injection hni2 with he
    subst he
    refine ⟨nfs, rfl, ?_, ?_⟩
    · simp [hl, asStr_ok_inv hsnS]
    · simp [hl2, asStr_ok_inv hrkS]
  · intro ufs nfs sn rk hsn hrk hid hacc
    have h := construct_eval ufs nfs [] sn rk Json.null none none hsn hrk
      (acceptedLookup_none ufs hacc) rfl rfl
    rw [hid] at h
    simpa [pyStr, pyRepr] using h

/-- C5 amended witness: an emitted entity implies the two required fields are
present in the name object; a bare name object with both fields yields an
entity with all optional data degraded. -/
theorem c5_emission_conditions_witness :
    (∃ nfs, (Json.obj [("scientificName", Json.str "Abies alba"),
                       ("rank", Json.str "species")]) = Json.obj nfs ∧
      jlookup nfs "scientificName" = some (Json.str "Abies alba") ∧
      jlookup nfs "rank" = some (Json.str "species")) ∧
    constructNameInfo (Json.obj []) (Json.obj
        [("scientificName", Json.str "Abies alba"), ("rank", Json.str "species")]) [] =
      Except.ok { scientificName := "Abies alba", rank := "species",
                  link := some (colTaxonBase ++ "None"),
                  acceptedName := none, classification := none } :=
  ⟨c5_emission_conditions.1 (Json.obj []) (Json.obj
      [("scientificName", Json.str "Abies alba"), ("rank", Json.str "species")]) []
      { scientificName := "Abies alba", rank := "species",
        link := some (colTaxonBase ++ "None"),
        acceptedName := none, classification := none } rfl,
   c5_emission_conditions.2 []
     [("scientificName", Json.str "Abies alba"), ("rank", Json.str "species")]
     "Abies alba" "species" rfl rfl rfl rfl⟩

/-- C6: every non-success HTTP status yields the empty envelope with
`total = 0`, a diagnostic carrying the status code, no export file, and the
run still produces its report. -/
theorem c6_api_failure (resp : HttpResponse) (h : resp.status_code ≠ 200) :
    buildColResponse resp = Except.ok
      ({ results := [], query_url := resp.url, total := 0 },
       ["API call failed: " ++ toString resp.status_code]) ∧
    csvExport { results := [], query_url := resp.url, total := 0 } = none ∧
    (∀ s, runFromResponse { results := [], query_url := resp.url, total := 0 }
        (GenOutcome.ok s) =
      Except.ok (reportLines { results := [], query_url := resp.url, total := 0 } s,
                 none)) := by
  refine ⟨?_, ?_, fun s => ?_⟩
  · simp [buildColResponse, h]
  · simp [csvExport]
  · simp [runFromResponse, csvExport]

/-- C6 witness: HTTP 500 produces the `API call failed: 500` diagnostic, an
empty envelope with total 0, no export, and a completed report. -/
theorem c6_api_failure_witness :
    buildColResponse { status_code := 500, url := "u", body := Json.null } =
      Except.ok ({ results := [], query_url := "u", total := 0 },
                 ["API call failed: " ++ toString (500 : Nat)]) ∧
    csvExport { results := [], query_url := "u", total := 0 } = none ∧
    runFromResponse { results := [], query_url := "u", total := 0 }
        (GenOutcome.ok "No results found.") =
      Except.ok (reportLines { results := [], query_url := "u", total := 0 }
                   "No results found.", none) :=
  ⟨(c6_api_failure { status_code := 500, url := "u", body := Json.null }
      (by decide)).1,
   (c6_api_failure { status_code := 500, url := "u", body := Json.null }
      (by decide)).2.1,
   (c6_api_failure { status_code := 500, url := "u", body := Json.null }
      (by decide)).2.2 "No results found."⟩

/-- C7: round-trip of the link synthesis — a well-formed element whose
identifier is the string `X` derives exactly the canonical template with `X`
substituted, and that string passes the `HttpUrl` well-formedness check. -/
theorem c7_link_roundtrip (ufs nfs : List (String × Json)) (sn rk : String)
    (hsn : jlookup nfs "scientificName" = some (Json.str sn))
    (hrk : jlookup nfs "rank" = some (Json.str rk))
    (hacc : jlookup ufs "accepted" = none)
    (hid : jlookup ufs "id" = some (Json.str "X")) :
    constructNameInfo (Json.obj ufs) (Json.obj nfs) [] =
      Except.ok { scientificName := sn, rank := rk,
                  link := some (colTaxonBase ++ "X"),
                  acceptedName := none, classification := none } ∧
    isValidHttpUrl (colTaxonBase ++ "X") = true := by
  refine ⟨?_, valid_link "X"⟩
  have h := construct_eval ufs nfs [] sn rk Json.null none none hsn hrk
    (acceptedLookup_none ufs hacc) rfl rfl
  rw [hid] at h
  simpa [pyStr] using h

/-- C7 witness: a concrete well-formed element with identifier `X`. -/
theorem c7_link_roundtrip_witness :
    constructNameInfo (Json.obj [("id", Json.str "X")]) (Json.obj
        [("scientificName", Json.str "Panthera leo"), ("rank", Json.str "species")]) [] =
      Except.ok { scientificName := "Panthera leo", rank := "species",
                  link := some (colTaxonBase ++ "X"),
                  acceptedName := none, classification := none } ∧
    isValidHttpUrl (colTaxonBase ++ "X") = true :=
  c7_link_roundtrip [("id", Json.str "X")]
    [("scientificName", Json.str "Panthera leo"), ("rank", Json.str "species")]
    "Panthera leo" "species" rfl rfl rfl rfl

/-- Extraction result for an element built by `mkItem` with an empty
classification list. -/
theorem extract_mkItem (ufs nfs : List (String × Json))
    (hname : jlookup ufs "name" = some (Json.obj nfs)) :
    extractItem (mkItem ufs (Json.arr [])) =
      Except.ok (Json.obj ufs, Json.obj nfs, []) := by
  simp [extractItem, mkItem, pyGetD, pyGet, pyIter, jlookup, hname,
    List.mapM.loop]

/-- C8: absence discipline — an element whose source classification list is
empty normalizes with `classification = none` (absent, not an empty
sequence), and a break at ANY segment of the `accepted → name →
scientificName` path (`accepted` missing, its `name` missing, or its
`scientificName` missing) yields `acceptedName = none`, while the entity
itself is still emitted. -/
theorem c8_absence_discipline (ufs nfs : List (String × Json)) (sn rk : String)
    (hname : jlookup ufs "name" = some (Json.obj nfs))
    (hsn : jlookup nfs "scientificName" = some (Json.str sn))
    (hrk : jlookup nfs "rank" = some (Json.str rk))
    (hid : jlookup ufs "id" = none) :
    (jlookup ufs "accepted" = none →
      normalizeItem (mkItem ufs (Json.arr [])) = Except.ok (some
        { scientificName := sn, rank := rk, link := some (colTaxonBase ++ "None"),
          acceptedName := none, classification := none })) ∧
    (∀ afs, jlookup ufs "accepted" = some (Json.obj afs) →
      jlookup afs "name" = none →
      normalizeItem (mkItem ufs (Json.arr [])) = Except.ok (some
        { scientificName := sn, rank := rk, link := some (colTaxonBase ++ "None"),
          acceptedName := none, classification := none })) ∧
    (∀ afs anfs, jlookup ufs "accepted" = some (Json.obj afs) →
      jlookup afs "name" = some (Json.obj anfs) →
      jlookup anfs "scientificName" = none →
      normalizeItem (mkItem ufs (Json.arr [])) = Except.ok (some
        { scientificName := sn, rank := rk, link := some (colTaxonBase ++ "None"),
          acceptedName := none, classification := none })) := by
  have hext := extract_mkItem ufs nfs hname
  refine ⟨fun hacc => ?_, fun afs h1 h2 => ?_, fun afs anfs h1 h2 h3 => ?_⟩
  · have hc := construct_eval ufs nfs [] sn rk Json.null none none hsn hrk
      (acceptedLookup_none ufs hacc) rfl rfl
    rw [hid] at hc
    simp only [normalizeItem, hext, exbind_ok]
    simp only [Option.getD_none, pyStr, pyRepr] at hc
    simp [hc]
  · have hc := construct_eval ufs nfs [] sn rk Json.null none none hsn hrk
      (acceptedLookup_no_name ufs afs h1 h2) rfl rfl
    rw [hid] at hc
    simp only [normalizeItem, hext, exbind_ok]
    simp only [Option.getD_none, pyStr, pyRepr] at hc
    simp [hc]
  · have hc := construct_eval ufs nfs [] sn rk Json.null none none hsn hrk
      (acceptedLookup_no_sn ufs afs anfs h1 h2 h3) rfl rfl
    rw [hid] at hc
    simp only [normalizeItem, hext, exbind_ok]
    simp only [Option.getD_none, pyStr, pyRepr] at hc
    simp [hc]

/-- C8 witness: concrete elements with an empty classification list and a
broken accepted path, at each of the three break points. -/
theorem c8_absence_discipline_witness :
    normalizeItem (mkItem
        [("name", Json.obj [("scientificName", Json.str "Abies alba"),
                            ("rank", Json.str "species")])]
        (Json.arr [])) =
      Except.ok (some { scientificName := "Abies alba", rank := "species",
                        link := some (colTaxonBase ++ "None"),
                        acceptedName := none, classification := none }) ∧
    normalizeItem (mkItem
        [("name", Json.obj [("scientificName", Json.str "Abies alba"),
                            ("rank", Json.str "species")]),
         ("accepted", Json.obj [])]
        (Json.arr [])) =
      Except.ok (some { scientificName := "Abies alba", rank := "species",
                        link := some (colTaxonBase ++ "None"),
                        acceptedName := none, classification := none }) ∧
    normalizeItem (mkItem
        [("name", Json.obj [("scientificName", Json.str "Abies alba"),
                            ("rank", Json.str "species")]),
         ("accepted", Json.obj [("name", Json.obj [])])]
        (Json.arr [])) =
      Except.ok (some { scientificName := "Abies alba", rank := "species",
                        link := some (colTaxonBase ++ "None"),
                        acceptedName := none, classification := none }) :=
  ⟨(c8_absence_discipline
      [("name", Json.obj [("scientificName", Json.str "Abies alba"),
                          ("rank", Json.str "species")])]
      [("scientificName", Json.str "Abies alba"), ("rank", Json.str "species")]
      "Abies alba" "species" rfl rfl rfl rfl).1 rfl,
   (c8_absence_discipline
      [("name", Json.obj [("scientificName", Json.str "Abies alba"),
                          ("rank", Json.str "species")]),
       ("accepted", Json.obj [])]
      [("scientificName", Json.str "Abies alba"), ("rank", Json.str "species")]
      "Abies alba" "species" rfl rfl rfl rfl).2.1 [] rfl rfl,
   (c8_absence_discipline
      [("name", Json.obj [("scientificName", Json.str "Abies alba"),
                          ("rank", Json.str "species")]),
       ("accepted", Json.obj [("name", Json.obj [])])]
      [("scientificName", Json.str "Abies alba"), ("rank", Json.str "species")]
      "Abies alba" "species" rfl rfl rfl rfl).2.2 [("name", Json.obj [])] [] rfl rfl rfl⟩
